import Mathlib

/-!
Shallow embedding of the HGPU session / port-forwarding lifecycle manager
(`src/session_manager.py`, `src/port_utils.py`, `src/gpu_manager.py`,
`src/app.py`) and proofs about the specification's claims.

Conventions: `time.time()` values are modelled as `Nat` parameters (`now`);
the python dict `self.sessions` is an association list with dict semantics
(`setEntry` replaces in place, `delKey` erases the key); the single
non-reentrant `threading.Lock` is modelled by threading an explicit
`lockFree` flag through operations executed on one thread: acquiring the
lock while the same thread already holds it blocks forever, which the
embedding surfaces as `Except.error Stuck.deadlock`.  Externally observable
actions (lock acquire/release, starting/joining cleanup threads, invoking
`manager.cleanup()`, deleting a map entry) are recorded in an event trace.
-/

/-- One entry of `SessionManager.sessions` (src/session_manager.py:40-45):
`manager` is abstracted by whether it has a `cleanup` attribute
(`hasattr(manager, 'cleanup')`). -/
structure Session where
  managerHasCleanup : Bool
  email : String
  created_at : Nat
  last_activity : Nat
  deriving Repr, DecidableEq

/-- The registry map `self.sessions : Dict[str, Dict]`. -/
abbrev Sessions := List (String × Session)

/-- Observable actions of the session manager. -/
inductive Ev where
  | acquireLock
  | releaseLock
  | startCleanupThread (sid : String)
  /-- `cleanup_thread.join(timeout=10)` — the calling thread waits (up to
  `timeout` seconds) for the session's cleanup work. -/
  | joinCleanupThread (sid : String) (timeout : Nat)
  /-- `manager.cleanup()` invoked directly on the calling thread. -/
  | callCleanup (sid : String)
  | delSession (sid : String)
  deriving Repr, DecidableEq

/-- The embedding's marker for an execution that blocks forever
(re-acquiring the held non-reentrant `threading.Lock`). -/
inductive Stuck where
  | deadlock
  deriving Repr, DecidableEq

/-- Dict lookup `self.sessions[sid]` / `sid in self.sessions`. -/
def getEntry (st : Sessions) (sid : String) : Option Session :=
  match st with
  | [] => none
  | (k, v) :: rest => if k = sid then some v else getEntry rest sid

/-- Dict assignment `self.sessions[sid] = v` (replaces in place). -/
def setEntry (st : Sessions) (sid : String) (v : Session) : Sessions :=
  match st with
  | [] => [(sid, v)]
  | (k, w) :: rest => if k = sid then (k, v) :: rest else (k, w) :: setEntry rest sid v

/-- Dict deletion `del self.sessions[sid]`. -/
def delKey (st : Sessions) (sid : String) : Sessions :=
  st.filter (fun e => e.1 ≠ sid)

/-- `SessionManager.create_session` (src/session_manager.py:30-46): with the
lock, unconditionally assigns a fresh entry for `sid`. -/
def createSession (st : Sessions) (sid : String) (managerHasCleanup : Bool)
    (email : String) (now : Nat) : Sessions × List Ev :=
  (setEntry st sid
    { managerHasCleanup := managerHasCleanup
      email := email
      created_at := now
      last_activity := now },
   [Ev.acquireLock, Ev.releaseLock])

/-- `SessionManager.get_session` (src/session_manager.py:48-64): with the
lock, if present, touches `last_activity` and returns the session. -/
def getSession (st : Sessions) (sid : String) (now : Nat) :
    Option Session × Sessions :=
  match getEntry st sid with
  | some s =>
      let s' := { s with last_activity := now }
      (some s', setEntry st sid s')
  | none => (none, st)

/-- Body of `SessionManager.remove_session` (src/session_manager.py:66-102)
run on a thread for which the lock's availability is `lockFree`: the
function opens with `with self._lock:`, so when the same thread already
holds the lock it blocks forever.  Otherwise: if the session exists and its
manager has `cleanup`, a cleanup thread is started and joined (timeout 10 s)
before `del self.sessions[sid]`; returns whether a removal occurred. -/
def removeSessionAux (lockFree : Bool) (st : Sessions) (sid : String) :
    Except Stuck (Bool × Sessions × List Ev) :=
  if ¬lockFree then
    Except.error Stuck.deadlock
  else
    match getEntry st sid with
    | some s =>
        let cleanupEvs :=
          if s.managerHasCleanup then
            [Ev.startCleanupThread sid, Ev.joinCleanupThread sid 10]
          else []
        Except.ok (true, delKey st sid,
          Ev.acquireLock :: (cleanupEvs ++ [Ev.delSession sid, Ev.releaseLock]))
    | none => Except.ok (false, st, [Ev.acquireLock, Ev.releaseLock])

/-- `SessionManager.remove_session` called from outside the lock (the normal
entry point); total because the lock is free. -/
def removeSession (st : Sessions) (sid : String) : Bool × Sessions × List Ev :=
  match removeSessionAux true st sid with
  | Except.ok r => r
  | Except.error _ => (false, st, [])

/-- `SessionManager.cleanup_expired_sessions` (src/session_manager.py:112-134):
holds the lock while collecting the ids with
`now - last_activity > session_timeout`, then — still holding the lock —
calls `self.remove_session(sid)` for each, which re-acquires the
non-reentrant lock.  Returns the number of sessions removed. -/
def cleanupExpiredSessions (st : Sessions) (sessionTimeout : Nat) (now : Nat) :
    Except Stuck (Nat × Sessions) :=
  let expired := (st.filter (fun e => now - e.2.last_activity > sessionTimeout)).map (·.1)
  match expired with
  | [] => Except.ok (0, st)
  | sid :: _ =>
      -- `remove_session` is invoked with the lock already held by this thread
      match removeSessionAux false st sid with
      | Except.ok _ => Except.ok (expired.length, st)
      | Except.error e => Except.error e

/-- `SessionManager._cleanup_session_async` (src/session_manager.py:201-220):
with the lock, if the session is still present, invokes `manager.cleanup()`
directly (exceptions caught) and deletes the entry. -/
def cleanupSessionAsync (st : Sessions) (sid : String) : Sessions × List Ev :=
  match getEntry st sid with
  | none => (st, [Ev.acquireLock, Ev.releaseLock])
  | some s =>
      let cleanupEvs := if s.managerHasCleanup then [Ev.callCleanup sid] else []
      (delKey st sid,
       Ev.acquireLock :: (cleanupEvs ++ [Ev.delSession sid, Ev.releaseLock]))

/-- Was the lock held (depth > 0) when the given cleanup-wait event (a
`joinCleanupThread` or a direct `callCleanup`) occurred?  Scans the trace
keeping the current lock depth. -/
def cleanupUnderLock : Nat → List Ev → Bool
  | _, [] => false
  | d, Ev.acquireLock :: r => cleanupUnderLock (d + 1) r
  | d, Ev.releaseLock :: r => cleanupUnderLock (d - 1) r
  | d, Ev.joinCleanupThread _ _ :: r => decide (0 < d) || cleanupUnderLock d r
  | d, Ev.callCleanup _ :: r => decide (0 < d) || cleanupUnderLock d r
  | d, _ :: r => cleanupUnderLock d r

/-- Is the event one that performs or waits for per-session cleanup work? -/
def isCleanupEv : Ev → Bool
  | Ev.startCleanupThread _ => true
  | Ev.joinCleanupThread _ _ => true
  | Ev.callCleanup _ => true
  | _ => false

/-! ### PortAllocator — `find_available_local_port` (src/port_utils.py:10-40)

The liveness probe `subprocess.run(f"lsof -i:{port}")` is modelled by
`probe : Nat → Option Int` giving the command's return code, or `none` when
running it raised (the `except` branch, which skips the candidate).  A port
is reported unused exactly when the return code is nonzero. -/

/-- `result.returncode != 0` on a probe that ran: the candidate is free. -/
def probeFree (probe : Nat → Option Int) (p : Nat) : Bool :=
  match probe p with
  | some rc => rc ≠ 0
  | none => false

/-- Scan loop of `find_available_local_port`: first candidate whose probe
reports it unused; candidates where the probe raised are skipped. -/
def findPortLoop (probe : Nat → Option Int) : List Nat → Option Nat
  | [] => none
  | p :: ps => if probeFree probe p then some p else findPortLoop probe ps

/-- `find_available_local_port((a, b))`: the tuple is converted to
`range(a, b + 1)` and scanned in ascending order. -/
def findAvailableLocalPort (a b : Nat) (probe : Nat → Option Int) : Option Nat :=
  findPortLoop probe (List.range' a (b + 1 - a))

/-! ### TunnelManager — `GPUServerManager.setup_port_forwarding`
(src/gpu_manager.py:372-394) -/

/-- Actions of `setup_port_forwarding`, in program order. -/
inductive TunnelEv where
  /-- `subprocess.run(f"lsof -ti:{p} | xargs kill -9")` — pre-empt whatever
  holds the local port. -/
  | killPort (p : Nat)
  /-- `subprocess.run(sshpass ... -L lp:rh:rp ...)` — spawn the forwarding
  process. -/
  | spawnTunnel (lp : Nat) (rh : String) (rp : Nat)
  deriving Repr, DecidableEq

/-- Environment outcome of the ssh spawn: its return code and stderr. -/
structure TunnelWorld where
  rc : Int
  stderr : String

/-- `setup_port_forwarding(remote_host, remote_port, local_port)`: kills any
holder of `local_port`, spawns the tunnel, and returns `(False, stderr)` on
non-zero exit, `(True, banner)` otherwise. -/
def setupPortForwarding (w : TunnelWorld) (remoteHost : String)
    (remotePort localPort : Nat) : List TunnelEv × (Bool × String) :=
  ([TunnelEv.killPort localPort, TunnelEv.spawnTunnel localPort remoteHost remotePort],
   if w.rc ≠ 0 then (false, w.stderr)
   else (true, s!"localhost:{localPort} -> {remoteHost}:{remotePort}"))

/-! ### ShutdownCoordinator — `SessionManager.shutdown`
(src/session_manager.py:165-199)

`shutdown` snapshots the session ids under the lock, then submits
`_cleanup_session_async(sid)` for each id to a
`ThreadPoolExecutor(max_workers=min(N, 5))`.  Each task deletes its own id;
the final registry state is the fold of the per-session cleanups over the
snapshot.  Exiting the `with ThreadPoolExecutor` block calls
`executor.shutdown(wait=True)`, which joins every submitted task, so the
call returns only once all cleanups have finished — the 5 s / 30 s
result-collection timeouts only stop the result loop, not the tasks.
Moreover each `_cleanup_session_async` holds `self._lock` for its whole
body, `manager.cleanup()` included, so the pool's tasks serialize on the
registry lock and the time until all tasks finish is the sum of the
cleanup durations. -/

/-- `min(len(session_ids), 5)` (src/session_manager.py:179). -/
def shutdownMaxWorkers (st : Sessions) : Nat :=
  min st.length 5

/-- Registry state after `shutdown` has run every `_cleanup_session_async`
task over the snapshot of ids. -/
def shutdownFinal (st : Sessions) : Sessions :=
  (st.map (·.1)).foldl (fun s sid => (cleanupSessionAsync s sid).1) st

/-- Time at which `shutdown` returns: every submitted task joined, and the
tasks serialized on the registry lock, so the sum of the cleanup
durations. -/
def shutdownReturnTime (ds : List Nat) : Nat :=
  ds.foldl (· + ·) 0

/-! ### String scanning helpers for `re.search` patterns used by
`GPUServerManager.start_jupyter` (src/gpu_manager.py:274-368) -/

/-- Value of a nonempty digit string, as `int(m.group(1))`. -/
def digitsToNat (ds : List Char) : Nat :=
  ds.foldl (fun n c => 10 * n + (c.toNat - 48)) 0

/-- `re.search(r':(\d+)', s)`: the digit run after the first colon that is
immediately followed by a digit. -/
def firstColonNum : List Char → Option Nat
  | [] => none
  | c :: rest =>
      if c = ':' then
        let ds := rest.takeWhile Char.isDigit
        if ds.isEmpty then firstColonNum rest else some (digitsToNat ds)
      else firstColonNum rest

/-- `re.search(r':(\d+)\s', s)`: as `firstColonNum`, but the digit run must
be followed by a whitespace character. -/
def firstColonNumWs : List Char → Option Nat
  | [] => none
  | c :: rest =>
      if c = ':' then
        let ds := rest.takeWhile Char.isDigit
        match rest.drop ds.length with
        | a :: _ =>
            if ¬ds.isEmpty ∧ a.isWhitespace then some (digitsToNat ds)
            else firstColonNumWs rest
        | [] => firstColonNumWs rest
      else firstColonNumWs rest

/-- Strips `pre` from the front of `cs`, if it is a prefix. -/
def stripPre : List Char → List Char → Option (List Char)
  | [], cs => some cs
  | _ :: _, [] => none
  | p :: ps, c :: cs => if c = p then stripPre ps cs else none

/-- Attempt to match `http://[^:]+:(\d+)/` at the head of `cs`; returns the
captured digit characters. -/
def matchUrlAt (cs : List Char) : Option (List Char) :=
  match stripPre "http://".toList cs with
  | none => none
  | some rest =>
      let part1 := rest.takeWhile (· ≠ ':')
      if part1.isEmpty then none
      else
        match rest.drop part1.length with
        | _ :: rest2 =>
            let ds := rest2.takeWhile Char.isDigit
            if ds.isEmpty then none
            else
              match rest2.drop ds.length with
              | c2 :: _ => if c2 = '/' then some ds else none
              | [] => none
        | [] => none

/-- `re.search(r'http://[^:]+:(\d+)/', s)`: first position where the pattern
matches. -/
def searchUrlPort : List Char → Option (List Char)
  | [] => none
  | c :: rest =>
      match matchUrlAt (c :: rest) with
      | some ds => some ds
      | none => searchUrlPort rest

/-- Does `pat` occur starting at some suffix of `cs`? -/
def containsChars (pat : List Char) : List Char → Bool
  | [] => pat.isEmpty
  | c :: rest => List.isPrefixOf pat (c :: rest) || containsChars pat rest

/-- Python's `pat in s` substring test. -/
def containsStr (s pat : String) : Bool :=
  containsChars pat.toList s.toList

/-- Python's `not s.strip()`: the string is empty or all whitespace. -/
def isBlank (s : String) : Bool :=
  s.trim = ""

/-! ### EndpointDiscovery — the discovery part of
`GPUServerManager.start_jupyter` (src/gpu_manager.py:274-368)

`json.loads(line)` followed by
`actual_port = int(obj.get('port')) if obj.get('port') else None`
is a library call, modelled by its observable outcome `JsonRes`: `fail`
when `json.loads` raises, the object is not a dict, or `int(...)` raises
(all land in the `except:` branch with the same line); `obj p` when the
line parses, with `p = some n` when the port field was truthy and
converted to `n`, `p = none` when the field was absent or falsy. -/

inductive JsonRes where
  | fail
  | obj (port : Option Int)
  deriving DecidableEq

/-- The parse loop over `info.splitlines()` (src/gpu_manager.py:349-357),
tracking the running value of `actual_port` (`acc`): a parsed record with a
truthy nonzero port breaks; on parse failure, `re.search(r':(\d+)', line)`
is consulted and any match breaks the loop with that number. -/
def scanLoop (jparse : String → JsonRes) : Option Int → List String → Option Int
  | acc, [] => acc
  | acc, line :: rest =>
      match jparse line with
      | JsonRes.obj p =>
          match p with
          | some n => if n ≠ 0 then some n else scanLoop jparse (some n) rest
          | none => scanLoop jparse none rest
      | JsonRes.fail =>
          match firstColonNum line.toList with
          | some n => some (n : Int)
          | none => scanLoop jparse acc rest

/-- Python truthiness of `actual_port` after the loop
(`if not actual_port:` at src/gpu_manager.py:358). -/
def portTruthy : Option Int → Bool
  | some n => n ≠ 0
  | none => false

/-- Environment of one `start_jupyter` discovery run: the outcome of each
remote command, per call site, in source order. -/
structure DiscWorld where
  /-- observable outcome of `json.loads` + port extraction per line -/
  jparse : String → JsonRes
  /-- `jupyter server list --json || jupyter lab list --json` -/
  listOk : Bool
  listOut : String
  /-- `ps aux | grep jupyter` -/
  psOk : Bool
  psOut : String
  /-- `netstat -tlnp | grep jupyter || ss -tlnp | grep jupyter` -/
  nsOk : Bool
  nsOut : String
  /-- `docker inspect` for the container IP, after the netstat match -/
  ip1Ok : Bool
  ip1Out : String
  /-- `tail -20 /workspace/jupyter.log` -/
  logOk : Bool
  logOut : String
  /-- `docker inspect` after the log-file URL match -/
  ip2Ok : Bool
  ip2Out : String
  /-- the alternative `docker inspect | grep ...` fallback -/
  ip3Ok : Bool
  ip3Out : String
  /-- `ss -tlnp | grep python3` -/
  ssOk : Bool
  ssOut : String
  /-- `lsof -i -P -n | grep python3` -/
  lsofOk : Bool
  lsofOut : String
  /-- `docker inspect` after the ss/lsof port -/
  ip4Ok : Bool
  ip4Out : String
  /-- `docker inspect` after the structured-listing parse -/
  ip5Ok : Bool
  ip5Out : String

/-- Result of the discovery part of `start_jupyter`: either
`(True, "JupyterLab up (no token)", None, {"port": p, "ip": ip})` or
`(False, msg, None, None)`. -/
inductive DiscResult where
  | success (port : Int) (ip : String)
  | failure (msg : String)
  deriving Repr, DecidableEq

/-- The ss/lsof sub-branch (src/gpu_manager.py:319-344), entered when the
log shows no usable URL port; `none` means control falls through to the
final `return False, "Could not read jupyter server list"`. -/
def ssLsofBranch (w : DiscWorld) : Option DiscResult :=
  let portRes : Except DiscResult Nat :=
    if w.ssOk ∧ ¬isBlank w.ssOut then
      match firstColonNumWs w.ssOut.toList with
      | some p => Except.ok p
      | none => Except.error (DiscResult.failure "Could not determine actual port")
    else if w.lsofOk ∧ ¬isBlank w.lsofOut then
      match firstColonNum w.lsofOut.toList with
      | some p => Except.ok p
      | none => Except.error (DiscResult.failure "Could not determine actual port")
    else Except.error (DiscResult.failure "Could not find Jupyter port")
  match portRes with
  | Except.error r => some r
  | Except.ok p =>
      if w.ip4Ok ∧ ¬isBlank w.ip4Out then
        some (DiscResult.success (p : Int) w.ip4Out.trim)
      else none

/-- The log-file branch (src/gpu_manager.py:296-344); `none` means control
falls through to the final failure return. -/
def logBranch (w : DiscWorld) : Option DiscResult :=
  if w.logOk ∧ ¬isBlank w.logOut then
    match searchUrlPort w.logOut.toList with
    | some ds =>
        if ds ≠ ['0'] then
          let p := digitsToNat ds
          if w.ip2Ok ∧ ¬isBlank w.ip2Out then
            some (DiscResult.success (p : Int) w.ip2Out.trim)
          else if w.ip3Ok ∧ ¬isBlank w.ip3Out then
            some (DiscResult.success (p : Int) w.ip3Out.trim)
          else some (DiscResult.success (p : Int) "localhost")
        else ssLsofBranch w
    | none => ssLsofBranch w
  else none

/-- The netstat branch (src/gpu_manager.py:283-294); `none` means control
falls through to the log-file branch. -/
def netstatBranch (w : DiscWorld) : Option DiscResult :=
  if w.nsOk ∧ ¬isBlank w.nsOut then
    match firstColonNum w.nsOut.toList with
    | some p =>
        if w.ip1Ok ∧ ¬isBlank w.ip1Out then
          some (DiscResult.success (p : Int) w.ip1Out.trim)
        else none
    | none => none
  else none

/-- The discovery chain of `start_jupyter` (src/gpu_manager.py:274-368):
structured listing, then — when it fails or is blank — the process check
guarding the netstat, log-file and ss/lsof fallbacks; every path that finds
no port ends in a `failure` whose message is built at that return site
alone. -/
def discover (w : DiscWorld) : DiscResult :=
  if ¬(w.listOk ∧ ¬isBlank w.listOut) then
    if w.psOk ∧ containsStr w.psOut "jupyter" then
      match netstatBranch w with
      | some r => r
      | none =>
          match logBranch w with
          | some r => r
          | none => DiscResult.failure "Could not read jupyter server list"
    else DiscResult.failure "Could not read jupyter server list"
  else
    let r := scanLoop w.jparse none (w.listOut.splitOn "\n")
    if portTruthy r then
      if w.ip5Ok ∧ ¬isBlank w.ip5Out then
        DiscResult.success (r.getD 0) w.ip5Out.trim
      else DiscResult.failure "Could not determine container IP"
    else DiscResult.failure ("Could not parse port from: " ++ w.listOut)

/-! ### LifecycleController teardown — `GPUServerManager.cleanup`
(src/gpu_manager.py:396-435) and the `/logout` route (src/app.py:1005-1032) -/

/-- Environment of one `GPUServerManager.cleanup` run: which resources the
manager holds and which teardown steps raise. -/
structure CleanupWorld where
  hasTunnelProc : Bool
  /-- `terminate()` / `wait(timeout=2)` raises -/
  terminateRaises : Bool
  /-- the `kill()` in the bare `except:` handler raises -/
  killRaises : Bool
  hasSshClient : Bool
  /-- `ssh_client.close()` (or transport access) raises — caught by
  `except Exception` -/
  closeRaises : Bool
  hasLocalPort : Bool
  /-- the port-cleanup subprocess raises — caught -/
  portCleanupRaises : Bool
  deriving Repr, DecidableEq

/-- Does `GPUServerManager.cleanup` raise?  The tunnel block catches
exceptions from `terminate()`/`wait()` with a bare `except:` whose handler
calls `self.ssh_tunnel_process.kill()` outside any try — an exception there
propagates.  The SSH-close and port-cleanup blocks catch their own
exceptions. -/
def gpuCleanupRaises (w : CleanupWorld) : Bool :=
  w.hasTunnelProc && w.terminateRaises && w.killRaises

/-- Generic dict lookup on an association list. -/
def lookupKey {α : Type} (st : List (String × α)) (sid : String) : Option α :=
  match st with
  | [] => none
  | (k, v) :: rest => if k = sid then some v else lookupKey rest sid

/-- Generic dict deletion on an association list. -/
def eraseKey {α : Type} (st : List (String × α)) (sid : String) : List (String × α) :=
  st.filter (fun e => e.1 ≠ sid)

/-- The JSON body returned by the `/logout` route. -/
structure LogoutResp where
  success : Bool
  message : String
  deriving Repr, DecidableEq

/-- The `/logout` route (src/app.py:1005-1032) over `active_sessions`
(each session abstracted to its manager's `CleanupWorld`): a present
session's manager is cleaned up inside a `try`; when `cleanup()` raises,
the handler returns `{'success': False, ...}` and the `del` is skipped;
a missing/falsy id returns `{'success': True, 'message': 'Session already
ended'}`. -/
def logoutRoute (sessions : List (String × CleanupWorld)) (sid : Option String) :
    LogoutResp × List (String × CleanupWorld) :=
  match sid with
  | none => ({ success := true, message := "Session already ended" }, sessions)
  | some s =>
      if s = "" then ({ success := true, message := "Session already ended" }, sessions)
      else
        match lookupKey sessions s with
        | none => ({ success := true, message := "Session already ended" }, sessions)
        | some mgr =>
            if gpuCleanupRaises mgr then
              ({ success := false, message := "Error during logout" }, sessions)
            else
              ({ success := true, message := "Logged out successfully" }, eraseKey sessions s)

/-! ### Helper lemmas about the registry map -/

theorem getEntry_setEntry_self (st : Sessions) (sid : String) (v : Session) :
    getEntry (setEntry st sid v) sid = some v := by
  induction st with
  | nil => simp [setEntry, getEntry]
  | cons e rest ih =>
      obtain ⟨k, w⟩ := e
      by_cases h : k = sid
      · simp [setEntry, getEntry, h]
      · simp [setEntry, getEntry, h, ih]

theorem getEntry_delKey_self (st : Sessions) (sid : String) :
    getEntry (delKey st sid) sid = none := by
  induction st with
  | nil => rfl
  | cons e rest ih =>
      obtain ⟨k, w⟩ := e
      by_cases h : k = sid
      · simpa [delKey, List.filter_cons, h] using ih
      · simpa [delKey, getEntry, List.filter_cons, h] using ih

theorem getEntry_eq_none_of_all_ne (st : Sessions) (sid : String)
    (h : ∀ e ∈ st, e.1 ≠ sid) : getEntry st sid = none := by
  induction st with
  | nil => rfl
  | cons e rest ih =>
      have hk : e.1 ≠ sid := h e (List.mem_cons_self e rest)
      obtain ⟨k, w⟩ := e
      simp only [getEntry, if_neg hk]
      exact ih fun x hx => h x (List.mem_cons_of_mem _ hx)

theorem delKey_eq_self_of_getEntry_none (st : Sessions) (sid : String)
    (h : getEntry st sid = none) : delKey st sid = st := by
  induction st with
  | nil => rfl
  | cons e rest ih =>
      obtain ⟨k, w⟩ := e
      simp only [getEntry] at h
      by_cases hk : k = sid
      · simp [hk] at h
      · simp only [if_neg hk] at h
        simp [delKey, List.filter_cons, hk, ih h, delKey] at ih ⊢
        exact ih h

/-- `_cleanup_session_async` always leaves the registry without `sid`
(when `sid` is absent the `filter` keeps every entry). -/
theorem cleanupSessionAsync_fst (st : Sessions) (sid : String) :
    (cleanupSessionAsync st sid).1 = delKey st sid := by
  cases hrest : getEntry st sid with
  | none =>
      simp [cleanupSessionAsync, hrest, delKey_eq_self_of_getEntry_none st sid hrest]
  | some s => simp [cleanupSessionAsync, hrest]

theorem foldl_delKey_nil (ks : List String) :
    ∀ st : Sessions, (∀ e ∈ st, e.1 ∈ ks) →
      ks.foldl (fun s sid => delKey s sid) st = [] := by
  induction ks with
  | nil =>
      intro st h
      cases st with
      | nil => rfl
      | cons e rest => exact absurd (h e (List.mem_cons_self e rest)) (by simp)
  | cons k ks ih =>
      intro st h
      simp only [List.foldl_cons]
      refine ih (delKey st k) ?_
      intro e he
      have he' : e ∈ st ∧ e.1 ≠ k := by
        simpa [delKey, List.mem_filter] using he
      have := h e he'.1
      simp only [List.mem_cons] at this
      exact this.resolve_left he'.2

/-! ### Claim theorems -/

/-- A registry entry whose manager has a `cleanup` attribute, last active at
time 0. -/
def sampleSession : Session :=
  { managerHasCleanup := true
    email := "user@example.com"
    created_at := 0
    last_activity := 0 }

/-- C1: the claim states that `sweepExpired(maxAge)`
(`SessionManager.cleanup_expired_sessions`) removes exactly the sessions
whose `last_activity` is older than `maxAge` and returns their count.  On a
registry holding one expired session (`last_activity = 0`, timeout 10,
now 100) the code instead deadlocks: still holding the registry lock, it
calls `self.remove_session`, which re-acquires the same non-reentrant
`threading.Lock` and blocks forever, so nothing is removed and no count is
ever returned. -/
theorem cleanup_expired_sessions_deadlocks :
    cleanupExpiredSessions [("s1", sampleSession)] 10 100 =
      Except.error Stuck.deadlock := by
  rfl

/-- C2: the claim states that the registry lock is held only for the map
read/write and that `remove(id)` hands slow per-session cleanup off outside
the critical section.  In the code, `remove_session` starts the cleanup
thread and joins it (up to 10 s) inside `with self._lock:`, and shutdown's
`_cleanup_session_async` invokes `manager.cleanup()` directly under the
lock: in both traces the cleanup-wait event occurs at lock depth > 0. -/
theorem remove_session_cleanup_waits_under_lock :
    cleanupUnderLock 0 (removeSession [("s1", sampleSession)] "s1").2.2 = true ∧
    cleanupUnderLock 0 (cleanupSessionAsync [("s1", sampleSession)] "s1").2 = true := by
  exact ⟨rfl, rfl⟩

/-- C3: `remove(id)` is idempotent: for a registry containing `sid`, the
first `remove_session` returns `True`, the second returns `False`, and
`get_session` returns `None` after the first call (no error is raised —
the embedding of `remove_session` is total). -/
theorem remove_session_idempotent (st : Sessions) (sid : String) (s : Session)
    (now : Nat) (h : getEntry st sid = some s) :
    (removeSession st sid).1 = true ∧
    (removeSession (removeSession st sid).2.1 sid).1 = false ∧
    (getSession (removeSession st sid).2.1 sid now).1 = none := by
  have h1 : removeSession st sid =
      (true, delKey st sid,
        Ev.acquireLock ::
          ((if s.managerHasCleanup then
              [Ev.startCleanupThread sid, Ev.joinCleanupThread sid 10]
            else []) ++ [Ev.delSession sid, Ev.releaseLock])) := by
    simp [removeSession, removeSessionAux, h]
  have h2 : getEntry (delKey st sid) sid = none := getEntry_delKey_self st sid
  refine ⟨by rw [h1], ?_, ?_⟩
  · rw [h1]
    simp [removeSession, removeSessionAux, h2]
  · rw [h1]
    simp [getSession, h2]

/-- Witness for C3 at a concrete registry. -/
theorem remove_session_idempotent_witness :
    (removeSession [("s1", sampleSession)] "s1").1 = true ∧
    (removeSession (removeSession [("s1", sampleSession)] "s1").2.1 "s1").1 = false ∧
    (getSession (removeSession [("s1", sampleSession)] "s1").2.1 "s1" 50).1 = none :=
  remove_session_idempotent [("s1", sampleSession)] "s1" sampleSession 50 rfl

/-- C10: for an id already in the registry, `create_session` unconditionally
overwrites the entry with the fresh session, invokes no cleanup (its event
trace contains no cleanup event) and reports no error (the embedding is
total). -/
theorem create_session_overwrites (st : Sessions) (sid : String) (s : Session)
    (mgrHC : Bool) (email : String) (now : Nat)
    (_present : getEntry st sid = some s) :
    getEntry (createSession st sid mgrHC email now).1 sid =
      some { managerHasCleanup := mgrHC, email := email,
             created_at := now, last_activity := now } ∧
    (createSession st sid mgrHC email now).2.all (fun e => !isCleanupEv e) = true := by
  constructor
  · exact getEntry_setEntry_self st sid _
  · rfl

/-- Witness for C10 at a concrete registry. -/
theorem create_session_overwrites_witness :
    getEntry (createSession [("s1", sampleSession)] "s1" false "other@example.com" 7).1 "s1" =
      some { managerHasCleanup := false, email := "other@example.com",
             created_at := 7, last_activity := 7 } ∧
    (createSession [("s1", sampleSession)] "s1" false "other@example.com" 7).2.all
      (fun e => !isCleanupEv e) = true :=
  create_session_overwrites [("s1", sampleSession)] "s1" sampleSession false
    "other@example.com" 7 rfl

/-! ### C4 lemmas: the ascending scan over `List.range'` -/

theorem findPortLoop_range'_some (probe : Nat → Option Int) :
    ∀ (n s p : Nat), findPortLoop probe (List.range' s n) = some p →
      s ≤ p ∧ p < s + n ∧ probeFree probe p = true ∧
      ∀ q, s ≤ q → q < p → probeFree probe q = false := by
  intro n
  induction n with
  | zero => intro s p h; simp [List.range', findPortLoop] at h
  | succ m ih =>
      intro s p h
      rw [List.range'_succ] at h
      simp only [findPortLoop] at h
      by_cases hs : probeFree probe s = true
      · rw [if_pos hs] at h
        obtain rfl : s = p := by injection h
        exact ⟨le_refl _, by omega, hs, fun q hq1 hq2 => absurd hq1 (by omega)⟩
      · rw [if_neg hs] at h
        obtain ⟨h1, h2, h3, h4⟩ := ih (s + 1) p h
        refine ⟨by omega, by omega, h3, fun q hq1 hq2 => ?_⟩
        by_cases hqs : q = s
        · subst hqs; exact Bool.not_eq_true _ ▸ eq_false_of_ne_true hs
        · exact h4 q (by omega) hq2

theorem findPortLoop_range'_none (probe : Nat → Option Int) :
    ∀ (n s : Nat), findPortLoop probe (List.range' s n) = none ↔
      ∀ q, s ≤ q → q < s + n → probeFree probe q = false := by
  intro n
  induction n with
  | zero =>
      intro s
      constructor
      · intro _ q hq1 hq2
        exact absurd hq2 (by omega)
      · intro _
        rfl
  | succ m ih =>
      intro s
      rw [List.range'_succ]
      simp only [findPortLoop]
      by_cases hs : probeFree probe s = true
      · rw [if_pos hs]
        constructor
        · intro h; cases h
        · intro h
          have := h s (le_refl _) (by omega)
          rw [hs] at this; cases this
      · rw [if_neg hs]
        rw [ih (s + 1)]
        constructor
        · intro h q hq1 hq2
          by_cases hqs : q = s
          · subst hqs; exact Bool.not_eq_true _ ▸ eq_false_of_ne_true hs
          · exact h q (by omega) (by omega)
        · intro h q hq1 hq2
          exact h q (by omega) (by omega)

/-- C4: `find_available_local_port((a, b))` scans `range(a, b + 1)` in
ascending order: a returned port is within `[a, b]`, its probe reported it
unused, and every smaller candidate in the range was not reported unused;
`None` is returned exactly when no candidate's probe reports it unused. -/
theorem find_available_local_port_correct (a b : Nat) (probe : Nat → Option Int) :
    (∀ p, findAvailableLocalPort a b probe = some p →
      a ≤ p ∧ p ≤ b ∧ probeFree probe p = true ∧
      ∀ q, a ≤ q → q < p → probeFree probe q = false) ∧
    (findAvailableLocalPort a b probe = none ↔
      ∀ q, a ≤ q → q ≤ b → probeFree probe q = false) := by
  constructor
  · intro p h
    obtain ⟨h1, h2, h3, h4⟩ := findPortLoop_range'_some probe (b + 1 - a) a p h
    exact ⟨h1, by omega, h3, h4⟩
  · rw [show findAvailableLocalPort a b probe =
        findPortLoop probe (List.range' a (b + 1 - a)) from rfl,
      findPortLoop_range'_none probe (b + 1 - a) a]
    constructor
    · intro h q hq1 hq2; exact h q hq1 (by omega)
    · intro h q hq1 hq2; exact h q hq1 (by omega)

/-- A concrete probe: port 3000 is reported in use (`lsof` exits 0), every
other port is reported unused. -/
def exProbe (p : Nat) : Option Int :=
  if p = 3000 then some 0 else some 1

/-- Witness for C4: on the range (3000, 3002) with `exProbe`, the scan
returns 3001 — in range, reported unused, and the smaller candidate 3000
was reported in use. -/
theorem find_available_local_port_correct_witness :
    findAvailableLocalPort 3000 3002 exProbe = some 3001 ∧
    3000 ≤ 3001 ∧ 3001 ≤ 3002 ∧ probeFree exProbe 3001 = true ∧
    probeFree exProbe 3000 = false := by
  have h := (find_available_local_port_correct 3000 3002 exProbe).1 3001 (by decide)
  exact ⟨by decide, h.1, h.2.1, h.2.2.1, h.2.2.2 3000 (le_refl _) (by decide)⟩

/-- C5: `setup_port_forwarding` always performs the `lsof ... | xargs kill -9`
pre-emption of `local_port` strictly before spawning the forwarding process
(so a stale binding alone never causes failure), and when the spawned ssh
command exits non-zero it returns `(False, stderr)` — the diagnostic output —
rather than success. -/
theorem setup_port_forwarding_correct (w : TunnelWorld) (rh : String)
    (rp lp : Nat) :
    (∃ i j, i < j ∧
      (setupPortForwarding w rh rp lp).1.get? i = some (TunnelEv.killPort lp) ∧
      (setupPortForwarding w rh rp lp).1.get? j =
        some (TunnelEv.spawnTunnel lp rh rp)) ∧
    (w.rc ≠ 0 → (setupPortForwarding w rh rp lp).2 = (false, w.stderr)) ∧
    (w.rc = 0 → (setupPortForwarding w rh rp lp).2.1 = true) := by
  refine ⟨⟨0, 1, by omega, rfl, rfl⟩, ?_, ?_⟩
  · intro h
    simp [setupPortForwarding, h]
  · intro h
    simp [setupPortForwarding, h]

/-- Witness for C5: a spawn that exits 1 with stderr `"bind failed"` yields
a failure carrying that output. -/
theorem setup_port_forwarding_correct_witness :
    (setupPortForwarding ⟨1, "bind failed"⟩ "10.0.0.5" 8888 8890).2 =
      (false, "bind failed") :=
  (setup_port_forwarding_correct ⟨1, "bind failed"⟩ "10.0.0.5" 8888 8890).2.1
    (by decide)

/-- A well-formed structured-listing record line: a JSON object whose
`port` field is 8888. -/
def goodLine : String := "\x7b\"port\": 8888\x7d"

/-- The modelled outcome of `json.loads` + port extraction for the example
listing: `goodLine` parses with port 8888; every other line fails to
parse. -/
def exJparse (line : String) : JsonRes :=
  if line = goodLine then JsonRes.obj (some 8888) else JsonRes.fail

/-- Counterexample to C6: on a listing whose first line is malformed but
contains `:999` and whose second line is a well-formed record with port
8888, the parse loop does not skip the malformed line — its `except:`
branch regex-matches `:(\d+)` and breaks, so the malformed line determines
the result (999, not 8888). -/
theorem scan_loop_malformed_line_determines_result :
    scanLoop exJparse none ["error at host:999", goodLine] = some 999 ∧
    exJparse goodLine = JsonRes.obj (some 8888) ∧
    (some (999 : Int) : Option Int) ≠ some 8888 := by
  refine ⟨by decide, rfl, by decide⟩

/-- C6 (amended): in the structured-listing parse loop, a malformed line is
skipped (the scan continues with the remaining lines) only when the
fallback `re.search(r':(\d+)', line)` finds nothing; when it matches, the
loop breaks immediately and the malformed line's number is the result.
No exception escapes in either case. -/
theorem scan_loop_malformed_line (jp : String → JsonRes) (acc : Option Int)
    (line : String) (rest : List String) (h : jp line = JsonRes.fail) :
    (firstColonNum line.toList = none →
      scanLoop jp acc (line :: rest) = scanLoop jp acc rest) ∧
    (∀ n, firstColonNum line.toList = some n →
      scanLoop jp acc (line :: rest) = some (n : Int)) := by
  constructor
  · intro hn
    simp only [scanLoop, h]
    rw [hn]
  · intro n hn
    simp only [scanLoop, h]
    rw [hn]

/-- Witness for the amended C6 at the concrete malformed line. -/
theorem scan_loop_malformed_line_witness :
    scanLoop exJparse none ["service down at host:777", goodLine] = some 777 :=
  (scan_loop_malformed_line exJparse none "service down at host:777" [goodLine]
    (by decide)).2 777 (by decide)

/-- A discovery run in which every strategy fails: the structured listing
command fails (its captured output is a 50-character diagnostic), and the
process listing shows no `jupyter` process, so no later probe can succeed. -/
def failWorld : DiscWorld :=
  { jparse := fun _ => JsonRes.fail
    listOk := false
    listOut := "E0123456789012345678901234567890123456789012345678"
    psOk := true
    psOut := "root 1 0.0 0.1 bash"
    nsOk := false, nsOut := ""
    ip1Ok := false, ip1Out := ""
    logOk := false, logOut := ""
    ip2Ok := false, ip2Out := ""
    ip3Ok := false, ip3Out := ""
    ssOk := false, ssOut := ""
    lsofOk := false, lsofOut := ""
    ip4Ok := false, ip4Out := ""
    ip5Ok := false, ip5Out := "" }

/-- Counterexample to C7: when every strategy fails, the returned
diagnostic is the fixed string `"Could not read jupyter server list"`,
which contains neither the structured listing's captured output nor the
process listing's output — not the accumulated output of every attempted
strategy. -/
theorem discover_failure_drops_attempted_output :
    discover failWorld = DiscResult.failure "Could not read jupyter server list" ∧
    containsStr "Could not read jupyter server list" failWorld.listOut = false ∧
    containsStr "Could not read jupyter server list" failWorld.psOut = false := by
  decide

/-- The netstat branch never produces a failure result: it either returns a
success or falls through. -/
theorem netstatBranch_success (w : DiscWorld) (r : DiscResult)
    (h : netstatBranch w = some r) : ∃ p ip, r = DiscResult.success p ip := by
  unfold netstatBranch at h
  by_cases h1 : w.nsOk ∧ ¬isBlank w.nsOut
  · rw [if_pos h1] at h
    cases h2 : firstColonNum w.nsOut.toList with
    | none =>
        simp only [h2] at h
        exact Option.noConfusion h
    | some p =>
        simp only [h2] at h
        by_cases h3 : w.ip1Ok ∧ ¬isBlank w.ip1Out
        · rw [if_pos h3] at h
          exact ⟨(p : Int), w.ip1Out.trim, (Option.some.inj h).symm⟩
        · rw [if_neg h3] at h
          exact Option.noConfusion h
  · rw [if_neg h1] at h
    exact Option.noConfusion h

/-- The ss/lsof branch produces, besides successes and fall-through, only
the two site-specific failure messages. -/
theorem ssLsofBranch_failure_msg (w : DiscWorld) (m : String)
    (h : ssLsofBranch w = some (DiscResult.failure m)) :
    m = "Could not determine actual port" ∨ m = "Could not find Jupyter port" := by
  unfold ssLsofBranch at h
  by_cases h1 : w.ssOk ∧ ¬isBlank w.ssOut
  · rw [if_pos h1] at h
    cases h2 : firstColonNumWs w.ssOut.toList with
    | none =>
        simp only [h2] at h
        exact Or.inl (DiscResult.failure.inj (Option.some.inj h)).symm
    | some p =>
        simp only [h2] at h
        by_cases h3 : w.ip4Ok ∧ ¬isBlank w.ip4Out
        · rw [if_pos h3] at h
          exact DiscResult.noConfusion (Option.some.inj h)
        · rw [if_neg h3] at h
          exact Option.noConfusion h
  · rw [if_neg h1] at h
    by_cases h4 : w.lsofOk ∧ ¬isBlank w.lsofOut
    · rw [if_pos h4] at h
      cases h5 : firstColonNum w.lsofOut.toList with
      | none =>
          simp only [h5] at h
          exact Or.inl (DiscResult.failure.inj (Option.some.inj h)).symm
      | some p =>
          simp only [h5] at h
          by_cases h3 : w.ip4Ok ∧ ¬isBlank w.ip4Out
          · rw [if_pos h3] at h
            exact DiscResult.noConfusion (Option.some.inj h)
          · rw [if_neg h3] at h
            exact Option.noConfusion h
    · rw [if_neg h4] at h
      exact Or.inr (DiscResult.failure.inj (Option.some.inj h)).symm

/-- The log-file branch produces, besides successes and fall-through, only
the ss/lsof branch's two failure messages. -/
theorem logBranch_failure_msg (w : DiscWorld) (m : String)
    (h : logBranch w = some (DiscResult.failure m)) :
    m = "Could not determine actual port" ∨ m = "Could not find Jupyter port" := by
  unfold logBranch at h
  by_cases h1 : w.logOk ∧ ¬isBlank w.logOut
  · rw [if_pos h1] at h
    cases h2 : searchUrlPort w.logOut.toList with
    | none =>
        simp only [h2] at h
        exact ssLsofBranch_failure_msg w m h
    | some ds =>
        simp only [h2] at h
        by_cases h3 : ds ≠ ['0']
        · rw [if_pos h3] at h
          by_cases h4 : w.ip2Ok ∧ ¬isBlank w.ip2Out
          · rw [if_pos h4] at h
            exact DiscResult.noConfusion (Option.some.inj h)
          · rw [if_neg h4] at h
            by_cases h5 : w.ip3Ok ∧ ¬isBlank w.ip3Out
            · rw [if_pos h5] at h
              exact DiscResult.noConfusion (Option.some.inj h)
            · rw [if_neg h5] at h
              exact DiscResult.noConfusion (Option.some.inj h)
        · rw [if_neg h3] at h
          exact ssLsofBranch_failure_msg w m h
  · rw [if_neg h1] at h
    exact Option.noConfusion h

/-- C7 (amended): whenever discovery fails — in particular whenever every
strategy fails — the failure message is one of five diagnostics built at
the failing return site alone: the fixed strings
`"Could not read jupyter server list"`, `"Could not determine actual
port"`, `"Could not find Jupyter port"`, `"Could not determine container
IP"`, or `"Could not parse port from: <info>"` carrying only the
structured listing's output; never the accumulated output of every
attempted strategy. -/
theorem discover_failure_message_enumeration (w : DiscWorld) (m : String)
    (h : discover w = DiscResult.failure m) :
    m = "Could not read jupyter server list" ∨
    m = "Could not determine actual port" ∨
    m = "Could not find Jupyter port" ∨
    m = "Could not determine container IP" ∨
    m = "Could not parse port from: " ++ w.listOut := by
  unfold discover at h
  by_cases h1 : ¬(w.listOk ∧ ¬isBlank w.listOut)
  · rw [if_pos h1] at h
    by_cases h2 : w.psOk ∧ containsStr w.psOut "jupyter"
    · rw [if_pos h2] at h
      cases h3 : netstatBranch w with
      | some r =>
          simp only [h3] at h
          obtain ⟨p, ip, rfl⟩ := netstatBranch_success w r h3
          exact DiscResult.noConfusion h
      | none =>
          simp only [h3] at h
          cases h4 : logBranch w with
          | some r =>
              simp only [h4] at h
              exact Or.inr (Or.elim
                (logBranch_failure_msg w m (h ▸ h4)) Or.inl (fun hm => Or.inr (Or.inl hm)))
          | none =>
              simp only [h4] at h
              exact Or.inl (DiscResult.failure.inj h).symm
    · rw [if_neg h2] at h
      exact Or.inl (DiscResult.failure.inj h).symm
  · rw [if_neg h1] at h
    by_cases h5 : portTruthy (scanLoop w.jparse none (w.listOut.splitOn "\n"))
    · rw [if_pos h5] at h
      by_cases h6 : w.ip5Ok ∧ ¬isBlank w.ip5Out
      · rw [if_pos h6] at h
        exact DiscResult.noConfusion h
      · rw [if_neg h6] at h
        exact Or.inr (Or.inr (Or.inr (Or.inl (DiscResult.failure.inj h).symm)))
    · rw [if_neg h5] at h
      exact Or.inr (Or.inr (Or.inr (Or.inr (DiscResult.failure.inj h).symm)))

/-- Witness for the amended C7 at the concrete all-fail world: its failure
message is the first of the five enumerated diagnostics. -/
theorem discover_failure_message_enumeration_witness :
    "Could not read jupyter server list" = "Could not read jupyter server list" ∨
    "Could not read jupyter server list" = "Could not determine actual port" ∨
    "Could not read jupyter server list" = "Could not find Jupyter port" ∨
    "Could not read jupyter server list" = "Could not determine container IP" ∨
    "Could not read jupyter server list" = "Could not parse port from: " ++ failWorld.listOut :=
  discover_failure_message_enumeration failWorld
    "Could not read jupyter server list" (by decide)

/-- Counterexample to C8: shutdown returns only after every cleanup task
has finished (`with ThreadPoolExecutor` calls `shutdown(wait=True)` on
exit, and the tasks serialize on the registry lock), so with one session
whose cleanup takes 1000 s, `shutdown` returns after 1000 s — far beyond
the `ceil(N / poolSize) x 5 s` per-task budget plus the 30 s
result-collection timeout.  The claim's time bound does not hold. -/
theorem shutdown_return_time_unbounded :
    shutdownReturnTime [1000] = 1000 ∧ 1 * 5 + 30 < 1000 := by
  decide

/-- C8 (amended): `shutdown` cleans sessions with a worker pool of
`min(N, 5) <= 5` workers and, after it returns, every session has been
removed (`count() == 0`); but its return is not bounded by a multiple of
the per-task timeout: the executor join waits for every cleanup task, and
since each `_cleanup_session_async` holds the registry lock across
`manager.cleanup()` the tasks serialize, so `shutdown` returns only after
the sum of the cleanup durations has elapsed. -/
theorem shutdown_drains_registry (st : Sessions) :
    shutdownFinal st = [] ∧ shutdownMaxWorkers st ≤ 5 := by
  constructor
  · have hfun : (fun (s : Sessions) (sid : String) => (cleanupSessionAsync s sid).1) =
        fun s sid => delKey s sid := by
      funext s sid
      exact cleanupSessionAsync_fst s sid
    simp only [shutdownFinal, hfun]
    exact foldl_delKey_nil (st.map (·.1)) st (fun e he => List.mem_map.mpr ⟨e, he, rfl⟩)
  · exact min_le_right _ _

/-- `lookupKey` only returns values stored in the list. -/
theorem lookupKey_mem {α : Type} (st : List (String × α)) (sid : String) (v : α)
    (h : lookupKey st sid = some v) : ∃ e ∈ st, e.2 = v := by
  induction st with
  | nil => exact Option.noConfusion h
  | cons e rest ih =>
      obtain ⟨k, w⟩ := e
      by_cases hk : k = sid
      · refine ⟨(k, w), List.mem_cons_self _ _, ?_⟩
        simp only [lookupKey, if_pos hk] at h
        exact Option.some.inj h
      · simp only [lookupKey, if_neg hk] at h
        obtain ⟨e, he, hev⟩ := ih h
        exact ⟨e, List.mem_cons_of_mem _ he, hev⟩

/-- A manager state this program can actually produce:
`ssh_tunnel_process` is assigned only `None` (gpu_manager.py:36,
app.py:113, app.py:1110), and `setup_port_forwarding` runs the backgrounded
`ssh -f` command via `subprocess.run` without storing any process handle,
so no reachable manager holds a tunnel process. -/
def reachableMgr (w : CleanupWorld) : Prop :=
  w.hasTunnelProc = false

/-- On every reachable manager state, `GPUServerManager.cleanup` cannot
raise: its only uncaught statement (`kill()` inside the bare `except:`
handler) sits in the tunnel block, which is dead because
`ssh_tunnel_process` is always `None`; the SSH-close and port-release
blocks catch their own exceptions. -/
theorem gpuCleanupRaises_false (w : CleanupWorld) (h : reachableMgr w) :
    gpuCleanupRaises w = false := by
  have hw : w.hasTunnelProc = false := h
  simp [gpuCleanupRaises, hw]

/-- C9: for every session id — present, absent, or missing from the request
— the `/logout` route returns `success = True`, never an error: in every
state this program produces no manager holds a tunnel-process handle, so
`manager.cleanup()` never raises, and teardown failures in the SSH-close
and port-release steps are caught inside `cleanup` (logged and absorbed)
without reaching the route's error branch. -/
theorem logout_always_acknowledges (sessions : List (String × CleanupWorld))
    (sid : Option String) (h : ∀ e ∈ sessions, reachableMgr e.2) :
    (logoutRoute sessions sid).1.success = true := by
  match sid with
  | none => rfl
  | some s =>
      by_cases hs : s = ""
      · simp [logoutRoute, hs]
      · cases hm : lookupKey sessions s with
        | none => simp [logoutRoute, if_neg hs, hm]
        | some mgr =>
            obtain ⟨e, he, hev⟩ := lookupKey_mem sessions s mgr hm
            have hr : gpuCleanupRaises mgr = false := by
              refine gpuCleanupRaises_false mgr ?_
              rw [← hev]
              exact h e he
            simp [logoutRoute, if_neg hs, hm, hr]

/-- A reachable manager (no tunnel-process handle) whose absorbed teardown
steps all fail: the SSH close raises and the port cleanup raises. -/
def absorbedMgr : CleanupWorld :=
  { hasTunnelProc := false
    terminateRaises := false
    killRaises := false
    hasSshClient := true
    closeRaises := true
    hasLocalPort := true
    portCleanupRaises := true }

/-- Witness for C9: logging out a present session whose SSH close and port
release both fail still acknowledges success. -/
theorem logout_always_acknowledges_witness :
    (logoutRoute [("s1", absorbedMgr)] (some "s1")).1.success = true :=
  logout_always_acknowledges [("s1", absorbedMgr)] (some "s1")
    (fun e he => by rw [List.mem_singleton.mp he]; rfl)
